import Mathlib

/-!
Shallow embedding of `http3/roundtrip.go` (package http3): the round-tripping
facade `RoundTripper.RoundTripOpt`, its per-host connection cache (`getClient`,
`Close`), the advertised-service cache (`setAltServices`, `getAltServices`),
and the two discovery strategies (Alt-Svc based and happy-eyeballs racing).

Go maps are modelled as association lists from hostname strings; `time.Now()`
is modelled by an explicit natural-number clock carried in the state; the two
external transports (the QUIC-capable client and the TCP/TLS client) and the
Alt-Svc header parser are modelled as an environment of outcomes.  A Go nil
pointer dereference is modelled by the `panicked` result constructor, and a
receive from a channel that no goroutine will ever send on by `blocked`.
-/

/-- A request URL: only the fields the code reads (`Scheme`, `Host`). -/
structure URL where
  scheme : String
  host : String
deriving DecidableEq, Repr

/-- An `http.Request` as seen by this code: `URL` and `Header` are nilable
pointers (hence `Option`); `body` records whether `req.Body` is non-nil. -/
structure Request where
  url : Option URL
  header : Option (List (String × List String))
  method : String
  body : Bool
deriving DecidableEq, Repr

/-- `RoundTripOpt` options (the Go struct of the same name). -/
structure RTOpt where
  onlyCachedConn : Bool
  skipSchemeCheck : Bool
deriving DecidableEq, Repr

/-- An `altsvc.Service` record as consumed by this code: clear flag,
protocol identifier, max-age in seconds, persistence flag (`Persist == 1`). -/
structure Service where
  clear : Bool
  protocolID : String
  maxAge : Nat
  persist : Nat
deriving DecidableEq, Repr

/-- The Go zero value of `altsvc.Service`. -/
def zeroService : Service :=
  { clear := false, protocolID := "", maxAge := 0, persist := 0 }

/-- The `altSvc` struct: an embedded `altsvc.Service` plus `expiredAt`.
The Go zero time is modelled as clock value `0`. -/
structure AltSvc where
  service : Service
  expiredAt : Nat
deriving DecidableEq, Repr

/-- The Go zero value of `altSvc` (produced by `make([]altSvc, n)`). -/
def zeroAltSvc : AltSvc := { service := zeroService, expiredAt := 0 }

/-- A cached QUIC-capable client handle.  `closeErr` is the outcome its
`Close()` will report (the handle itself is an external collaborator). -/
structure Handle where
  host : String
  closeErr : Option Nat
deriving DecidableEq, Repr

/-- The handle produced by the client factory for a hostname.
Modelled from the spec: `newClient` is the external QUIC-capable client-handle
factory `create(authority, ...) -> (handle, error)`; its body is not part of
this package, and constructing the (lazily dialling) handle does not fail. -/
def freshHandle (hostname : String) : Handle :=
  { host := hostname, closeErr := none }

/-- `TLSClientConfig`: only the field the code reads. -/
structure TLSConf where
  insecureSkipVerify : Bool
deriving DecidableEq, Repr

/-- An HTTP response: a tag to tell responses apart, and the only header
field this code reads (`res.Header.Get("Alt-Svc")`). -/
structure Response where
  tag : Nat
  altSvcHeader : String
deriving DecidableEq, Repr

/-- Association-list lookup, modelling a Go map read (a nil map reads as an
empty map). -/
def alookup {α : Type} : List (String × α) → String → Option α
  | [], _ => none
  | (k, v) :: rest, key => if k = key then some v else alookup rest key

/-- Association-list key deletion, modelling Go `delete(m, key)`. -/
def aerase {α : Type} : List (String × α) → String → List (String × α)
  | [], _ => []
  | (k, v) :: rest, key => if k = key then aerase rest key else (k, v) :: aerase rest key

/-- Association-list update, modelling Go `m[key] = v`. -/
def ainsert {α : Type} (m : List (String × α)) (key : String) (v : α) :
    List (String × α) :=
  aerase m key ++ [(key, v)]

/-- The mutable state of a `RoundTripper`: the discovery-mode field (a Go
`int`: `ConnectionDiscoveryAltSvc = 0`, `ConnectionDiscoveryHappyEyeballs = 1`),
the nilable TLS configuration, the per-host client map, the per-host
advertised-service map, and the current clock. -/
structure RTState where
  discovery : Int
  tlsClientConfig : Option TLSConf
  clients : List (String × Handle)
  altSvcs : List (String × List AltSvc)
  now : Nat
deriving DecidableEq, Repr

/-- Validation errors, one per rejection path of `RoundTripOpt`. -/
inductive ValErr where
  | nilURL
  | noHost
  | nilHeader
  | invalidHeaderName (k : String)
  | invalidHeaderValue (v k : String)
  | unsupportedScheme (s : String)
  | invalidMethod (m : String)
deriving DecidableEq, Repr

/-- Every error `RoundTripOpt` can return: validation errors,
`ErrNoCachedConn`, the invalid-ConnectionDiscovery error, opaque transport
errors, and errors from `altsvc.Parse`. -/
inductive RTError where
  | validation (e : ValErr)
  | noCachedConn
  | invalidDiscovery
  | transport (e : Nat)
  | parse (e : Nat)
deriving DecidableEq, Repr

/-- Observable side effects of one `RoundTripOpt` call: closing the request
body, creating (and caching) a QUIC-capable client handle, issuing the TCP/TLS
attempt, issuing the QUIC attempt. -/
inductive Effect where
  | closeBody
  | createClient (host : String)
  | tcpAttempt
  | quicAttempt
deriving DecidableEq, Repr

/-- Outcome of one `RoundTripOpt` call: a normal return (response, error, the
facade state afterwards, and the effects performed, in order), a Go runtime
panic, or blocking forever on a channel receive that can never be served. -/
inductive RTResult where
  | ret (res : Option Response) (err : Option RTError) (st : RTState) (effs : List Effect)
  | panicked (msg : String) (effs : List Effect)
  | blocked (effs : List Effect)
deriving DecidableEq, Repr

/-- The effects performed by a call, whatever its outcome. -/
def RTResult.effects : RTResult → List Effect
  | .ret _ _ _ e => e
  | .panicked _ e => e
  | .blocked e => e

/-- The response of a normal return (`none` otherwise). -/
def RTResult.response : RTResult → Option Response
  | .ret r _ _ _ => r
  | _ => none

/-- The error of a normal return (`none` otherwise). -/
def RTResult.err : RTResult → Option RTError
  | .ret _ e _ _ => e
  | _ => none

/-- Whether the call ended in a Go panic. -/
def RTResult.isPanic : RTResult → Bool
  | .panicked _ _ => true
  | _ => false

/-- `httpguts.IsTokenRune`: ASCII letters, digits, and the fifteen extra
token characters of RFC 7230 (their code points listed explicitly). -/
def isTokenRune (c : Char) : Bool :=
  let n := c.toNat
  (decide (48 ≤ n) && decide (n ≤ 57)) ||
  (decide (65 ≤ n) && decide (n ≤ 90)) ||
  (decide (97 ≤ n) && decide (n ≤ 122)) ||
  [33, 35, 36, 37, 38, 39, 42, 43, 45, 46, 94, 95, 96, 124, 126].contains n

/-- `httpguts.ValidHeaderFieldName`: non-empty and all token runes. -/
def validHeaderFieldName (s : String) : Bool :=
  !s.data.isEmpty && s.data.all isTokenRune

/-- `httpguts.ValidHeaderFieldValue`'s per-byte check: space, tab, or a
visible ASCII character. -/
def validHeaderFieldByte (c : Char) : Bool :=
  c == ' ' || c == '\t' || (decide (33 ≤ c.toNat) && decide (c.toNat ≤ 126))

/-- `httpguts.ValidHeaderFieldValue`: every byte passes the field-byte check. -/
def validHeaderFieldValue (s : String) : Bool :=
  s.data.all validHeaderFieldByte

/-- `validMethod` from the source: non-empty and no non-token rune. -/
def validMethod (m : String) : Bool :=
  !m.data.isEmpty && m.data.all isTokenRune

/-- `closeRequestBody(req)`: closes the body only when one is present; the
returned effects record whether a close actually happened. -/
def closeRequestBody (req : Request) : List Effect :=
  if req.body then [Effect.closeBody] else []

/-- First invalid value among a header key's values, in order. -/
def firstValueErr (k : String) : List String → Option ValErr
  | [] => none
  | v :: rest =>
    if !validHeaderFieldValue v then some (ValErr.invalidHeaderValue v k)
    else firstValueErr k rest

/-- First invalid header name or value, iterating `req.Header` in order. -/
def firstHeaderErr : List (String × List String) → Option ValErr
  | [] => none
  | (k, vv) :: rest =>
    if !validHeaderFieldName k then some (ValErr.invalidHeaderName k)
    else
      match firstValueErr k vv with
      | some e => some e
      | none => firstHeaderErr rest

/-- The validation prefix of `RoundTripOpt` (lines 105-137 of the source).
Returns `some (error, closed)` on rejection, where `closed` records whether
that path calls `closeRequestBody`, and `none` when validation passes.
Note that the two header-syntax rejection paths do not call
`closeRequestBody` in the source. -/
def validateReq (req : Request) (opt : RTOpt) : Option (ValErr × Bool) :=
  match req.url with
  | none => some (ValErr.nilURL, true)
  | some u =>
    if u.host = "" then some (ValErr.noHost, true)
    else
      match req.header with
      | none => some (ValErr.nilHeader, true)
      | some hdr =>
        let schemePart : Option (ValErr × Bool) :=
          if u.scheme = "https" then
            match firstHeaderErr hdr with
            | some e => some (e, false)
            | none => none
          else if !opt.skipSchemeCheck then
            some (ValErr.unsupportedScheme u.scheme, true)
          else none
        match schemePart with
        | some r => some r
        | none =>
          if !req.method.isEmpty && !validMethod req.method then
            some (ValErr.invalidMethod req.method, true)
          else none

/-- Modelled from the spec: `hostnameFromRequest` (declared outside this
file's source) reads the host out of the request URL, the authority used as
the cache key. -/
def hostnameFromRequest (req : Request) : String :=
  match req.url with
  | some u => u.host
  | none => ""

/-- Modelled from the spec: `authorityAddr` (declared outside this file's
source) computes host:port, defaulting the port for the https scheme. -/
def authorityAddr (host : String) : String :=
  if host.data.contains ':' then host else host ++ ":443"

/-- `RoundTripper.getClient`: under the lock, return the cached handle for
`hostname`; otherwise fail with `ErrNoCachedConn` when `onlyCached`, else
create a handle via the factory, cache it, and return it. -/
def getClient (st : RTState) (hostname : String) (onlyCached : Bool) :
    Except RTError Handle × RTState × List Effect :=
  match alookup st.clients hostname with
  | some c => (Except.ok c, st, [])
  | none =>
    if onlyCached then (Except.error RTError.noCachedConn, st, [])
    else
      let c := freshHandle hostname
      (Except.ok c, { st with clients := ainsert st.clients hostname c },
        [Effect.createClient hostname])

/-- The loop body of `setAltServices`: starting from the zero-value padding
produced by `make([]altSvc, len(svcs))`, append one entry per record; a record
with the clear flag aborts the whole batch (`none` means: delete the host's
entry and return). -/
def buildAltSvcs (now : Nat) : List Service → List AltSvc → Option (List AltSvc)
  | [], acc => some acc
  | s :: rest, acc =>
    if s.clear then none
    else
      let v : AltSvc :=
        { service := s,
          expiredAt := if s.persist ≠ 1 then now + s.maxAge else 0 }
      buildAltSvcs now rest (acc ++ [v])

/-- `RoundTripper.setAltServices`: replace (not merge) the host's record set;
on a clear-flagged record, delete the host's entry instead. -/
def setAltServices (now : Nat) (m : List (String × List AltSvc))
    (hostname : String) (svcs : List Service) : List (String × List AltSvc) :=
  match buildAltSvcs now svcs (List.replicate svcs.length zeroAltSvc) with
  | none => aerase m hostname
  | some val => ainsert m hostname val

/-- `RoundTripper.getAltServices`: look the host up (`ok` is map-membership),
then build `ret := make([]altSvc, len(svcs))` — zero-value padding — and
append every stored record that is not yet expired or is persistent. -/
def getAltServices (now : Nat) (m : List (String × List AltSvc))
    (hostname : String) : List AltSvc × Bool :=
  let entry := alookup m hostname
  let svcs := entry.getD []
  (List.replicate svcs.length zeroAltSvc ++
    svcs.filter (fun s => !decide (now > s.expiredAt) || s.service.persist == 1),
   entry.isSome)

/-- The Alt-Svc parser, an external collaborator: header value to parsed
records plus a possible parse error. -/
structure Env where
  tcpResult : Option Response × Option Nat
  quicResult : Option Response × Option Nat
  parse : String → List Service × Option Nat
  order : Bool

/-- The `ConnectionDiscoveryAltSvc` branch (lines 150-167): if the host has a
cache entry and some record's protocol id starts with "h3", dispatch over the
QUIC handle; otherwise do the TCP/TLS attempt, read the Alt-Svc header off the
response — a nil response is dereferenced, i.e. a panic — parse it, record the
result, and return the response together with the (shadowed) parse error. -/
def altSvcDispatch (st : RTState) (env : Env) (hostname : String)
    (effs : List Effect) : RTResult :=
  let lk := getAltServices st.now st.altSvcs hostname
  let h3Ready := lk.1.any (fun s => "h3".data.isPrefixOf s.service.protocolID.data)
  if lk.2 && h3Ready then
    RTResult.ret env.quicResult.1 (env.quicResult.2.map RTError.transport) st
      (effs ++ [Effect.quicAttempt])
  else
    match env.tcpResult with
    | (none, _) =>
      RTResult.panicked "nil pointer dereference: res.Header on failed TCP attempt"
        (effs ++ [Effect.tcpAttempt])
    | (some res, _) =>
      let parsed := env.parse res.altSvcHeader
      RTResult.ret (some res) (parsed.2.map RTError.parse)
        { st with altSvcs := setAltServices st.now st.altSvcs hostname parsed.1 }
        (effs ++ [Effect.tcpAttempt])

/-- The completion order of the two sub-attempts: when `order` is true the
QUIC goroutine reaches its send guard first, otherwise the TCP one does. -/
def raceArrivals (order : Bool) (q t : Option Response × Option Nat) :
    List (Option Response × Option Nat) :=
  if order then [q, t] else [t, q]

/-- The results actually sent on the completion channel: each goroutine
attempts a send only when its response is non-nil (`res != nil`), and the
`sync.Once` guard lets only the first such send run; the single receive
consumes at most that one value. -/
def raceDelivered (order : Bool) (q t : Option Response × Option Nat) :
    List (Option Response × Option Nat) :=
  ((raceArrivals order q t).filter (fun a => a.1.isSome)).take 1

/-- The `ConnectionDiscoveryHappyEyeballs` branch (lines 168-206): both
sub-attempts are launched; the caller receives the one delivered result, and
blocks forever when neither goroutine ever sends. -/
def raceDispatch (st : RTState) (env : Env) (effs : List Effect) : RTResult :=
  match raceDelivered env.order env.quicResult env.tcpResult with
  | [] => RTResult.blocked (effs ++ [Effect.quicAttempt, Effect.tcpAttempt])
  | a :: _ =>
    RTResult.ret a.1 (a.2.map RTError.transport) st
      (effs ++ [Effect.quicAttempt, Effect.tcpAttempt])

/-- `RoundTripOpt` after validation (lines 139-209): resolve the authority,
get or create the client handle, build the TCP transport — dereferencing the
nilable `TLSClientConfig`, a panic when it is nil — and dispatch on the
discovery mode, with an invalid-value error on any unknown mode. -/
def afterValidation (st : RTState) (env : Env) (req : Request) (opt : RTOpt) :
    RTResult :=
  let hostname := authorityAddr (hostnameFromRequest req)
  match getClient st hostname opt.onlyCachedConn with
  | (Except.error e, st1, effs) => RTResult.ret none (some e) st1 effs
  | (Except.ok _, st1, effs) =>
    match st1.tlsClientConfig with
    | none =>
      RTResult.panicked "nil pointer dereference: r.TLSClientConfig" effs
    | some _ =>
      if st1.discovery = 0 then altSvcDispatch st1 env hostname effs
      else if st1.discovery = 1 then raceDispatch st1 env effs
      else RTResult.ret none (some RTError.invalidDiscovery) st1 effs

/-- `RoundTripper.RoundTripOpt`: validate, closing the body exactly on the
paths the source does, then run the post-validation pipeline. -/
def roundTripOpt (st : RTState) (env : Env) (req : Request) (opt : RTOpt) :
    RTResult :=
  match validateReq req opt with
  | some (e, closed) =>
    RTResult.ret none (some (RTError.validation e)) st
      (if closed then closeRequestBody req else [])
  | none => afterValidation st env req opt

/-- The loop of `RoundTripper.Close`: walk the client map in iteration order,
closing handles; on the first close error, return immediately.  Yields the
hosts whose handles had `Close()` called, and the error returned. -/
def closeWalk : List (String × Handle) → List String × Option Nat
  | [] => ([], none)
  | (h, c) :: rest =>
    match c.closeErr with
    | some e => ([h], some e)
    | none =>
      let r := closeWalk rest
      (h :: r.1, r.2)

/-- `RoundTripper.Close`: run the close loop; only when every close succeeded
is `r.clients = nil` reached, clearing the map. -/
def closeRT (st : RTState) : Option Nat × RTState × List String :=
  let w := closeWalk st.clients
  match w.2 with
  | some e => (some e, st, w.1)
  | none => (none, { st with clients := [] }, w.1)

/-- Spec-side: the first close error among the cached handles, in order. -/
def firstCloseErr : List (String × Handle) → Option Nat
  | [] => none
  | (_, c) :: rest =>
    match c.closeErr with
    | some e => some e
    | none => firstCloseErr rest

/-- Spec-side: the hosts whose handles get a close attempt — everything up to
and including the first handle whose close errors. -/
def attemptedHosts : List (String × Handle) → List String
  | [] => []
  | (h, c) :: rest =>
    match c.closeErr with
    | some _ => [h]
    | none => h :: attemptedHosts rest

/-! Concrete fixtures used by the theorems below. -/

/-- A default (non-nil) TLS configuration. -/
def tlsDefault : TLSConf := { insecureSkipVerify := false }

/-- The cache key of the fixture host. -/
def host443 : String := "example.com:443"

/-- A well-formed https request URL (host already carries its port). -/
def urlGood : URL := { scheme := "https", host := "example.com:443" }

/-- A request passing every validation check. -/
def reqGood : Request :=
  { url := some urlGood, header := some [], method := "GET", body := false }

/-- A request with a body whose only flaw is a header name with a space,
invalid token syntax under the https scheme. -/
def reqBadHeader : Request :=
  { url := some urlGood, header := some [("Bad Header", [])], method := "",
    body := true }

/-- Default options: connection creation allowed, scheme check on. -/
def optDefault : RTOpt := { onlyCachedConn := false, skipSchemeCheck := false }

/-- A fresh facade in Alt-Svc discovery mode with empty caches. -/
def stEmpty : RTState :=
  { discovery := 0, tlsClientConfig := some tlsDefault, clients := [],
    altSvcs := [], now := 0 }

/-- The same facade in happy-eyeballs (race) discovery mode. -/
def stRace : RTState := { stEmpty with discovery := 1 }

/-- `stRace` after `getClient` has created and cached the fixture host's
handle. -/
def stRaceAfter : RTState :=
  { stRace with clients := [(host443, freshHandle host443)] }

/-- A facade whose nilable `TLSClientConfig` is nil. -/
def stNilTLS : RTState := { stEmpty with tlsClientConfig := none }

/-- A response carrying no Alt-Svc header. -/
def resp1 : Response := { tag := 1, altSvcHeader := "" }

/-- An Alt-Svc parser returning no records and no error. -/
def noParse : String → List Service × Option Nat := fun _ => ([], none)

/-- Environment: the TCP/TLS attempt succeeds, the QUIC attempt fails. -/
def envTcpOk : Env :=
  { tcpResult := (some resp1, none), quicResult := (none, some 7),
    parse := noParse, order := true }

/-- Environment: the TCP/TLS attempt fails before any response. -/
def envTcpFail : Env :=
  { tcpResult := (none, some 5), quicResult := (none, none),
    parse := noParse, order := true }

/-- Environment: both race sub-attempts fail before producing a response. -/
def envBothFail : Env :=
  { tcpResult := (none, some 2), quicResult := (none, some 1),
    parse := noParse, order := true }

/-- A race environment built from the two sub-attempt outcomes and the
completion order. -/
def envRace (q t : Option Response × Option Nat) (order : Bool) : Env :=
  { tcpResult := t, quicResult := q, parse := noParse, order := order }

/-- The effects of one race-mode call on a fresh facade. -/
def raceEffs : List Effect :=
  [Effect.createClient host443, Effect.quicAttempt, Effect.tcpAttempt]

/-- An advertised h3 record, not yet expired at clock 50. -/
def svcH3 : Service := { clear := false, protocolID := "h3", maxAge := 100, persist := 0 }

/-- The cached form of `svcH3`, expiring at clock 100. -/
def recH3 : AltSvc := { service := svcH3, expiredAt := 100 }

/-- A cached handle whose close errors. -/
def hErr : Handle := { host := "a.example:443", closeErr := some 11 }

/-- A cached handle whose close succeeds. -/
def hOk : Handle := { host := "b.example:443", closeErr := none }

/-- A facade with two cached handles, the first of which fails to close. -/
def stTwo : RTState :=
  { stEmpty with clients := [("a.example:443", hErr), ("b.example:443", hOk)] }

/-- C1: validation must release the request body on every rejection path.
The code does not: an invalid header field name under the https scheme is
rejected without `closeRequestBody` — the effects are empty although the
request has a body. -/
theorem c1_header_rejection_leaks_body :
    roundTripOpt stEmpty envTcpOk reqBadHeader optDefault =
      RTResult.ret none
        (some (RTError.validation (ValErr.invalidHeaderName "Bad Header")))
        stEmpty [] := rfl

/-- C3: under the race strategy, when both sub-attempts fail before producing
a response, neither goroutine sends (each sends only when `res != nil`), so
the single channel receive blocks forever instead of returning the first
failure. -/
theorem c3_double_failure_blocks :
    roundTripOpt stRace envBothFail reqGood optDefault =
      RTResult.blocked raceEffs := rfl

/-- C4: under the Alt-Svc strategy with no cached entry, a failing TCP/TLS
attempt leaves `res` nil, and the code dereferences it to read the Alt-Svc
header: a nil-pointer panic, not a propagated error. -/
theorem c4_tcp_failure_panics :
    roundTripOpt stEmpty envTcpFail reqGood optDefault =
      RTResult.panicked "nil pointer dereference: res.Header on failed TCP attempt"
        [Effect.createClient host443, Effect.tcpAttempt] := rfl

/-- C5: lookup is claimed to return exactly the stored persistent-or-unexpired
records.  On a host storing one valid record, `getAltServices` returns a
zero-value padding record (from `make([]altSvc, len(svcs))` followed by
`append`) ahead of it — a record that is not among the stored ones. -/
theorem c5_lookup_returns_padding :
    getAltServices 50 [(host443, [recH3])] host443 = ([zeroAltSvc, recH3], true) ∧
      zeroAltSvc ∉ [recH3] := ⟨rfl, by decide⟩

/-- C9: `TLSClientConfig` is documented as nilable ("If nil, the default
configuration is used"), yet a validated request on a facade with nil
`TLSClientConfig` dereferences it when building the TCP transport: a panic. -/
theorem c9_nil_tls_panics :
    roundTripOpt stNilTLS envTcpOk reqGood optDefault =
      RTResult.panicked "nil pointer dereference: r.TLSClientConfig"
        [Effect.createClient host443] := rfl

/-- C2 counterexample: on a host never advertised (no Alt-Svc cache entry),
the call nevertheless creates and caches a QUIC-capable client handle —
`getClient` runs before the strategy consults the advertisement cache. -/
theorem c2_counterexample :
    alookup stEmpty.altSvcs host443 = none ∧
      Effect.createClient host443 ∈
        (roundTripOpt stEmpty envTcpOk reqGood optDefault).effects :=
  ⟨rfl, by decide⟩

/-- C6 counterexample: with two cached handles whose first close errors,
`Close` returns the error immediately: the second handle's close is never
attempted and the map is not cleared. -/
theorem c6_counterexample :
    closeRT stTwo = (some 11, stTwo, ["a.example:443"]) ∧
      stTwo.clients.length = 2 := ⟨rfl, rfl⟩

/-- C6 amended: `Close` walks the cached handles in iteration order; on the
first close error it returns that error immediately, leaving the remaining
handles unattempted and the map uncleared; only when every close succeeds
does it clear the map and return nil. -/
theorem c6_close_first_error (st : RTState) :
    closeRT st =
      match firstCloseErr st.clients with
      | some e => (some e, st, attemptedHosts st.clients)
      | none => (none, { st with clients := [] }, attemptedHosts st.clients) := by
  have hw : ∀ cs : List (String × Handle),
      closeWalk cs = (attemptedHosts cs, firstCloseErr cs) := by
    intro cs
    induction cs with
    | nil => rfl
    | cons p rest ih =>
      obtain ⟨h, c⟩ := p
      cases hc : c.closeErr with
      | none => simp [closeWalk, attemptedHosts, firstCloseErr, hc, ih]
      | some e => simp [closeWalk, attemptedHosts, firstCloseErr, hc]
  simp only [closeRT, hw st.clients]

/-- C8: with `OnlyCachedConn` set and no cached handle for the request's
authority, a validated request fails immediately with `ErrNoCachedConn`,
leaves the state unchanged, and performs no effects at all — no handle
creation and no network attempt. -/
theorem c8_only_cached_fails_fast (st : RTState) (env : Env) (req : Request)
    (opt : RTOpt) (hv : validateReq req opt = none)
    (hc : alookup st.clients (authorityAddr (hostnameFromRequest req)) = none)
    (ho : opt.onlyCachedConn = true) :
    roundTripOpt st env req opt =
      RTResult.ret none (some RTError.noCachedConn) st [] := by
  simp only [roundTripOpt, hv, afterValidation, getClient, hc, ho, if_true]

/-- Witness for C8 on a fresh facade and a valid request. -/
theorem c8_witness :
    roundTripOpt stEmpty envTcpOk reqGood
        { onlyCachedConn := true, skipSchemeCheck := false } =
      RTResult.ret none (some RTError.noCachedConn) stEmpty [] :=
  c8_only_cached_fails_fast stEmpty envTcpOk reqGood
    { onlyCachedConn := true, skipSchemeCheck := false } rfl rfl rfl

/-- C2 amended: under the Alt-Svc strategy, a validated request to a host with
no advertisement entry and no cached client performs exactly one TCP/TLS
attempt and no QUIC dispatch, but does create (and cache) one QUIC-capable
handle for the host up front, before the advertisement cache is consulted. -/
theorem c2_unadvertised_host_effects (st : RTState) (env : Env) (req : Request)
    (opt : RTOpt) (cfg : TLSConf) (res : Response) (e : Option Nat)
    (hv : validateReq req opt = none)
    (hd : st.discovery = 0)
    (htls : st.tlsClientConfig = some cfg)
    (hc : alookup st.clients (authorityAddr (hostnameFromRequest req)) = none)
    (ha : alookup st.altSvcs (authorityAddr (hostnameFromRequest req)) = none)
    (ho : opt.onlyCachedConn = false)
    (htcp : env.tcpResult = (some res, e)) :
    (roundTripOpt st env req opt).effects =
      [Effect.createClient (authorityAddr (hostnameFromRequest req)),
        Effect.tcpAttempt] := by
  simp [roundTripOpt, hv, afterValidation, getClient, altSvcDispatch,
    getAltServices, hc, ha, ho, hd, htls, htcp, RTResult.effects]

/-- Witness for C2's amended theorem on a fresh facade. -/
theorem c2_witness :
    (roundTripOpt stEmpty envTcpOk reqGood optDefault).effects =
      [Effect.createClient (authorityAddr (hostnameFromRequest reqGood)),
        Effect.tcpAttempt] :=
  c2_unadvertised_host_effects stEmpty envTcpOk reqGood optDefault tlsDefault
    resp1 none rfl rfl rfl rfl rfl rfl rfl

/-- C7: in race mode, whenever at least one sub-attempt produces a response,
exactly one result is delivered — the first-arriving one — the call returns
normally (no panic, no block), and the later completion is never sent, so it
causes no write to the already-satisfied completion signal. -/
theorem c7_race_exactly_once (q t : Option Response × Option Nat) (order : Bool)
    (h : q.1.isSome ∨ t.1.isSome) :
    ∃ a, raceDelivered order q t = [a] ∧
      roundTripOpt stRace (envRace q t order) reqGood optDefault =
        RTResult.ret a.1 (a.2.map RTError.transport) stRaceAfter raceEffs := by
  obtain ⟨q1, q2⟩ := q
  obtain ⟨t1, t2⟩ := t
  have step : roundTripOpt stRace (envRace (q1, q2) (t1, t2) order) reqGood
      optDefault =
      raceDispatch stRaceAfter (envRace (q1, q2) (t1, t2) order)
        [Effect.createClient host443] := rfl
  rw [step]
  cases order <;> cases q1 <;> cases t1 <;>
    first
      | exact ⟨_, rfl, rfl⟩
      | simp_all

/-- Witness for C7: QUIC wins while TCP fails. -/
theorem c7_witness :
    ∃ a, raceDelivered true (some resp1, none) (none, some 2) = [a] ∧
      roundTripOpt stRace (envRace (some resp1, none) (none, some 2) true)
          reqGood optDefault =
        RTResult.ret a.1 (a.2.map RTError.transport) stRaceAfter raceEffs :=
  c7_race_exactly_once (some resp1, none) (none, some 2) true (Or.inl rfl)

/-- C10: with any discovery value other than the two defined constants, a
validated request returns a nil response and the invalid-value error — no
panic (the unknown mode falls into the default switch case). -/
theorem c10_invalid_discovery_errors (d : Int) (env : Env)
    (h0 : d ≠ 0) (h1 : d ≠ 1) :
    roundTripOpt { stEmpty with discovery := d } env reqGood optDefault =
      RTResult.ret none (some RTError.invalidDiscovery)
        { stEmpty with
            discovery := d,
            clients := [(host443, freshHandle host443)] }
        [Effect.createClient host443] := by
  have step : roundTripOpt { stEmpty with discovery := d } env reqGood
      optDefault =
      (if d = 0 then
        altSvcDispatch
          { stEmpty with
            discovery := d,
            clients := [(host443, freshHandle host443)] } env host443
          [Effect.createClient host443]
      else if d = 1 then
        raceDispatch
          { stEmpty with
            discovery := d,
            clients := [(host443, freshHandle host443)] } env
          [Effect.createClient host443]
      else
        RTResult.ret none (some RTError.invalidDiscovery)
          { stEmpty with
            discovery := d,
            clients := [(host443, freshHandle host443)] }
          [Effect.createClient host443]) := rfl
  rw [step, if_neg h0, if_neg h1]

/-- Witness for C10 at discovery value 2. -/
theorem c10_witness :
    roundTripOpt { stEmpty with discovery := 2 } envTcpOk reqGood optDefault =
      RTResult.ret none (some RTError.invalidDiscovery)
        { stEmpty with
            discovery := 2,
            clients := [(host443, freshHandle host443)] }
        [Effect.createClient host443] :=
  c10_invalid_discovery_errors 2 envTcpOk (by decide) (by decide)
